import Mathlib

/-!
Shallow embedding of the two Python services of this repository
(scripts/whisperx-service.py and scripts/embedding-service.py) and proofs
of the specification's claims about them.

External effects (the yt-dlp subprocess, the whisper model, the Supabase
HTTP calls, the filesystem) are modelled by explicit environment records
whose fields describe what the external world would have answered; the
handlers are then pure functions from a request and such an environment to
an outcome record that captures the response together with the observable
resource effects (guard acquisition/release, scratch-directory lifecycle,
checkpoint attempts).
-/

namespace Whisperx

/-- An HTTP error as raised by `HTTPException(code, detail)`. -/
structure HTTPErr where
  code : Nat
  detail : String
deriving DecidableEq, Repr

/-- `True` exactly on the `Except.error` constructor. -/
def isErr {ε α : Type} : Except ε α → Bool
  | .error _ => true
  | .ok _ => false

instance {ε α : Type} [DecidableEq ε] [DecidableEq α] : DecidableEq (Except ε α) :=
  fun a b =>
    match a, b with
    | .error x, .error y =>
      match decEq x y with
      | isTrue h => isTrue (by rw [h])
      | isFalse h => isFalse (fun hc => h (by injection hc))
    | .ok x, .ok y =>
      match decEq x y with
      | isTrue h => isTrue (by rw [h])
      | isFalse h => isFalse (fun hc => h (by injection hc))
    | .error _, .ok _ => isFalse (fun hc => Except.noConfusion hc)
    | .ok _, .error _ => isFalse (fun hc => Except.noConfusion hc)

/-- The status code of an error response, `none` on success. -/
def errCode {α : Type} : Except HTTPErr α → Option Nat
  | .error e => some e.code
  | .ok _ => none


/-- One word-level timestamp entry of a segment dict
(`{"text": ..., "startMs": ...}` as produced by `seg_to_dict`). -/
structure Word where
  text : String
  startMs : Int
deriving DecidableEq, Repr

/-- One segment dict as produced by `seg_to_dict`: trimmed text, `offset`
and `duration` in seconds, and the optional `words` sub-list (present only
when the engine produced word timestamps).  The transcript stream is
modelled at this boundary: the engine's raw segments are opaque and only
their converted dict form is observable to the pipeline. -/
structure Segment where
  text : String
  offset : Rat
  duration : Rat
  words : Option (List Word) := none
deriving DecidableEq, Repr

/-- Python's `int()` applied to a float/rational: truncation toward zero. -/
def pyInt (q : Rat) : Int :=
  if 0 ≤ q then ⌊q⌋ else ⌈q⌉

/-- `_MAX_AUDIO_BYTES = 1_500_000_000` (1.5 GB cap on downloaded audio). -/
def _MAX_AUDIO_BYTES : Nat := 1500000000

/-- What the external world answers during `download_audio`: the yt-dlp
subprocess result, the glob over `tmpdir`, and the size of the file found. -/
structure DlEnv where
  returncode : Int
  stderr : String
  stdout : String
  /-- `subprocess.run(..., timeout=...)` raised `TimeoutExpired`. -/
  timedOut : Bool
  /-- the results of `glob.glob(os.path.join(tmpdir, "audio.*"))` -/
  files : List String
  /-- `os.path.getsize(files[0])` -/
  fsize : Nat
deriving DecidableEq, Repr

/-- A failure of `download_audio`: either an `HTTPException` it raised
itself, or the `TimeoutExpired` escaping from `subprocess.run` (a generic
exception for the caller). -/
inductive DlError where
  | http (e : HTTPErr)
  | timeout
deriving DecidableEq, Repr

/-- `download_audio(vid, tmpdir, timeout)`: runs yt-dlp, globs for the
output file, and enforces the size window.  (The diagnostic strings keep
the source's literal prefixes; Python's thousands-separator formatting of
the sizes is rendered as plain numerals.) -/
def download_audio (vid : String) (env : DlEnv) : Except DlError String :=
  if env.timedOut then .error .timeout
  else if env.returncode ≠ 0 then
    .error (.http ⟨502, "Audio download failed: " ++ env.stderr.take 300⟩)
  else
    match env.files with
    | [] => .error (.http ⟨502, "No audio file found. stdout: " ++ env.stdout.take 200⟩)
    | audio_path :: _ =>
      if env.fsize < 1000 then
        .error (.http ⟨502, "Audio too small (" ++ toString env.fsize ++ " bytes)"⟩)
      else if _MAX_AUDIO_BYTES < env.fsize then
        .error (.http ⟨413, "Audio too large (" ++ toString env.fsize ++ " bytes, max "
          ++ toString _MAX_AUDIO_BYTES ++ ")"⟩)
      else .ok audio_path

/-- The HTTP status code carried by a failed download, `none` on success
or on a timeout (which surfaces as a generic exception, not an
`HTTPException`). -/
def dlHttpCode : Except DlError String → Option Nat
  | .error (.http e) => some e.code
  | .error .timeout => none
  | .ok _ => none

/-- `flush_interval = 20  # flush every 20 segments` -/
def flush_interval : Nat := 20

/-- `estimated_duration = info.duration or 600`: Python's `or` substitutes
the fallback exactly when the reported duration is falsy (`0.0`). -/
def estimated_duration_of (d : Rat) : Rat :=
  if d = 0 then 600 else d

/-- `pct = min(95, int(last_time / estimated_duration * 100))`
(whisperx-service.py line 251). -/
def progress_pct (estimated_duration last_time : Rat) : Int :=
  min 95 (pyInt (last_time / estimated_duration * 100))

/-- The observable record of one periodic checkpoint attempt inside the
progressive loop: how many segments had accumulated, the `last_time`
offset used for progress, the reported percentage, and whether the upsert
succeeded. -/
structure FlushEvent where
  atCount : Nat
  lastOffset : Rat
  pct : Int
  ok : Bool
deriving DecidableEq, Repr

/-- The loop-carried state of the progressive consumption loop
(`segments`, `last_flush_count`), extended with the trace of periodic
checkpoint attempts and a counter indexing the flush-failure oracle. -/
structure LoopState where
  segments : List Segment
  last_flush_count : Nat
  flushEvents : List FlushEvent
  attempt : Nat
deriving Repr

/-- One iteration of the progressive loop body (lines 244-262): append the
segment; if `len(segments) - last_flush_count >= flush_interval`, attempt
a checkpoint upsert of the whole list.  On success `last_flush_count` is
advanced; a failure is caught and leaves it unchanged.  `flushFails n`
tells whether the n-th upsert attempt of this job raises. -/
def flushStep (est : Rat) (flushFails : Nat → Bool) (st : LoopState) (s : Segment) :
    LoopState :=
  let segments := st.segments ++ [s]
  if (flush_interval : Int) ≤ (segments.length : Int) - (st.last_flush_count : Int) then
    let last_time := (segments.getLast?.map Segment.offset).getD 0
    let pct := progress_pct est last_time
    let ok := ! flushFails st.attempt
    { segments := segments
      last_flush_count := if ok then segments.length else st.last_flush_count
      flushEvents := st.flushEvents ++ [⟨segments.length, last_time, pct, ok⟩]
      attempt := st.attempt + 1 }
  else
    { st with segments := segments }

/-- Consume a (finite, forward-only) transcript stream through the
progressive loop, starting from empty accumulation state. -/
def runStream (est : Rat) (flushFails : Nat → Bool) (segs : List Segment) : LoopState :=
  segs.foldl (flushStep est flushFails) ⟨[], 0, [], 0⟩

/-- `TranscribeRequest` body of `POST /transcribe`. -/
structure TranscribeRequest where
  video_id : String
deriving DecidableEq, Repr

/-- `ProgressiveRequest` body of `POST /transcribe/progressive`. -/
structure ProgressiveRequest where
  video_id : String
  job_id : String
  worker_id : String
deriving DecidableEq, Repr

/-- What the external world answers during one request: the module-level
Supabase credentials (the empty string stands for an unset or empty
environment variable, both falsy in the source's `not _SUPABASE_URL`
test), the guard's held/free state at entry, the download environment, the
transcription engine's behaviour, and which checkpoint upserts fail. -/
structure ReqEnv where
  supabase_url : String
  supabase_key : String
  /-- `_gpu_lock` is already held by another job when this request arrives. -/
  gpuHeld : Bool
  dl : DlEnv
  /-- `some msg`: `transcribe_audio` raises `Exception(msg)` before yielding. -/
  transcribeErr : Option String
  /-- the segments the (lazy) stream would yield, in order, already in dict form -/
  streamSegs : List Segment
  /-- `some (n, msg)`: the stream raises `Exception(msg)` after yielding
  its first `n` segments. -/
  streamErrAfter : Option (Nat × String)
  /-- `info.duration` -/
  streamDuration : Rat
  /-- whether the n-th `supabase_upsert_segments` attempt of this job raises -/
  flushFails : Nat → Bool

/-- `{"segments": ..., "duration": ...}` returned by `/transcribe`. -/
structure SyncResponse where
  segments : List Segment
  duration : Rat
deriving DecidableEq, Repr

/-- `{"segments": ..., "duration": ..., "segment_count": ...}` returned by
`/transcribe/progressive`. -/
structure ProgResponse where
  segments : List Segment
  duration : Rat
  segment_count : Nat
deriving DecidableEq, Repr

/-- The observable outcome of one request: the HTTP response plus the
resource effects — whether the guard was ever acquired, whether it is held
after the handler returns, whether the scratch directory was created and
whether it was removed again, the trace of periodic checkpoint attempts,
and the accumulated-segment counts of the final-flush attempts. -/
structure Outcome (ρ : Type) where
  response : Except HTTPErr ρ
  guardAcquired : Bool
  gpuHeldAfter : Bool
  tmpdirCreated : Bool
  tmpdirRemoved : Bool
  flushEvents : List FlushEvent
  finalFlushes : List Nat

/-- `POST /transcribe` (lines 171-201): validate the id, try-acquire the
guard, make the scratch dir, download, transcribe, collect all segments;
the `finally` block releases the guard and removes the scratch dir on
every exit path after acquisition. -/
def transcribe (req : TranscribeRequest) (env : ReqEnv) : Outcome SyncResponse :=
  if req.video_id = "" ∨ req.video_id.length ≠ 11 then
    ⟨.error ⟨400, "Invalid video_id"⟩, false, env.gpuHeld, false, false, [], []⟩
  else if env.gpuHeld then
    ⟨.error ⟨503, "GPU busy with another transcription"⟩, false, env.gpuHeld, false, false, [], []⟩
  else
    -- guard acquired, scratch dir created; `finally` releases and removes
    match download_audio req.video_id env.dl with
    | .error (.http e) => ⟨.error e, true, false, true, true, [], []⟩
    | .error .timeout =>
        ⟨.error ⟨500, "subprocess timeout"⟩, true, false, true, true, [], []⟩
    | .ok _audio_path =>
      match env.transcribeErr with
      | some msg => ⟨.error ⟨500, msg⟩, true, false, true, true, [], []⟩
      | none =>
        match env.streamErrAfter with
        | some (_, msg) => ⟨.error ⟨500, msg⟩, true, false, true, true, [], []⟩
        | none =>
          ⟨.ok ⟨env.streamSegs, env.streamDuration⟩, true, false, true, true, [], []⟩

/-- `POST /transcribe/progressive` (lines 212-281): reject if the Supabase
credentials are unconfigured, validate the id, try-acquire the guard, make
the scratch dir, download, transcribe while flushing every
`flush_interval` segments (checkpoint failures caught), attempt a final
flush when any segments accumulated; the `finally` block releases the
guard and removes the scratch dir on every exit path after acquisition. -/
def transcribe_progressive (req : ProgressiveRequest) (env : ReqEnv) :
    Outcome ProgResponse :=
  if env.supabase_url = "" ∨ env.supabase_key = "" then
    ⟨.error ⟨500, "Supabase env vars not configured on GPU server"⟩,
      false, env.gpuHeld, false, false, [], []⟩
  else if req.video_id = "" ∨ req.video_id.length ≠ 11 then
    ⟨.error ⟨400, "Invalid video_id"⟩, false, env.gpuHeld, false, false, [], []⟩
  else if env.gpuHeld then
    ⟨.error ⟨503, "GPU busy with another transcription"⟩, false, env.gpuHeld, false, false, [], []⟩
  else
    -- guard acquired, scratch dir created; `finally` releases and removes
    match download_audio req.video_id env.dl with
    | .error (.http e) => ⟨.error e, true, false, true, true, [], []⟩
    | .error .timeout =>
        ⟨.error ⟨500, "subprocess timeout"⟩, true, false, true, true, [], []⟩
    | .ok _audio_path =>
      match env.transcribeErr with
      | some msg => ⟨.error ⟨500, msg⟩, true, false, true, true, [], []⟩
      | none =>
        let estimated_duration := estimated_duration_of env.streamDuration
        match env.streamErrAfter with
        | some (n, msg) =>
          -- periodic flushes for the prefix already happened; the raise
          -- skips the final flush and is mapped to a 500 response
          let st := runStream estimated_duration env.flushFails (env.streamSegs.take n)
          ⟨.error ⟨500, msg⟩, true, false, true, true, st.flushEvents, []⟩
        | none =>
          let st := runStream estimated_duration env.flushFails env.streamSegs
          let finalFlushes := if st.segments.isEmpty then [] else [st.segments.length]
          ⟨.ok ⟨st.segments, env.streamDuration, st.segments.length⟩,
            true, false, true, true, st.flushEvents, finalFlushes⟩

/-- `cleanup_orphan_temps` (lines 358-375): one entry of the
`pathlib.Path("/tmp").glob("whisperx-*")` scan, with its name and
last-modified time. -/
structure TmpEntry where
  name : String
  mtime : Rat
deriving DecidableEq, Repr

/-- Whether the startup janitor sweep deletes a given `/tmp` entry, given
the current time and the `HF_HOME` model-cache path (`""` when unset):
the entry must match the `whisperx-*` glob, must not equal the model
cache, must look like a tempfile-created dir (name length ≥ 15), and must
be older than the one-hour cutoff. -/
def janitorDeletes (now : Rat) (hf_home : String) (e : TmpEntry) : Bool :=
  let cutoff := now - 3600
  if ¬ (e.name.startsWith "whisperx-") then false  -- outside the glob
  else if hf_home ≠ "" ∧ ("/tmp/" ++ e.name) = hf_home then false
  else if ¬ (e.name.startsWith "whisperx-") ∨ e.name.length < 15 then false
  else decide (e.mtime < cutoff)

/-- The entries surviving the startup sweep. -/
def cleanup_orphan_temps (now : Rat) (hf_home : String) (entries : List TmpEntry) :
    List TmpEntry :=
  entries.filter (fun e => ! janitorDeletes now hf_home e)

end Whisperx

namespace Embedding

/-- An embed request body: `texts: list[str]`, `input_type: str = "document"`. -/
structure EmbedRequest where
  texts : List String
  input_type : String := "document"
deriving DecidableEq, Repr

/-- The pure content of the `/embed` handler: validation of the batch size
and task-prefixing of the texts.  The encode step itself is external; the
handler is modelled up to the exact list of prefixed strings handed to it. -/
def embed (req : EmbedRequest) : Except Whisperx.HTTPErr (List String) :=
  if req.texts.isEmpty then .error ⟨400, "Empty texts list"⟩
  else if 256 < req.texts.length then .error ⟨400, "Max 256 texts per request"⟩
  else
    .ok (req.texts.map (fun t =>
      (if req.input_type = "document" then "search_document: " else "search_query: ") ++ t))

end Embedding

namespace Whisperx

/-- A stream of `n` one-second segments at offsets `0, 1, 2, ...` seconds. -/
def mkSegs (n : Nat) : List Segment :=
  (List.range n).map (fun i => { text := "t", offset := (i : Rat), duration := 1 })

/-- A download environment in which yt-dlp succeeds with a file of `n` bytes. -/
def dlEnvOfSize (n : Nat) : DlEnv :=
  { returncode := 0, stderr := "", stdout := "", timedOut := false,
    files := ["/tmp/whisperx-abc123ef/audio.webm"], fsize := n }

/-- A fully healthy request environment around a given stream. -/
def goodEnv (segs : List Segment) (d : Rat) (ff : Nat → Bool) : ReqEnv :=
  { supabase_url := "https://example.supabase.co", supabase_key := "service-role-key",
    gpuHeld := false, dl := dlEnvOfSize 5000, transcribeErr := none,
    streamSegs := segs, streamErrAfter := none, streamDuration := d, flushFails := ff }

/-- The flush oracle under which every checkpoint upsert succeeds. -/
def ff0 : Nat → Bool := fun _ => false

/-- The flush oracle under which every checkpoint upsert fails. -/
def ffAll : Nat → Bool := fun _ => true

/-- A well-formed 11-character content identifier for the sync endpoint. -/
def syncReq : TranscribeRequest := ⟨"abcdefghijk"⟩

/-- A well-formed request for the progressive endpoint. -/
def progReq : ProgressiveRequest := ⟨"abcdefghijk", "job-1", "worker-1"⟩

/-- A request with a 5-character identifier (fails validation). -/
def badSyncReq : TranscribeRequest := ⟨"short"⟩

/-- A progressive request with an empty identifier (fails validation). -/
def badProgReq : ProgressiveRequest := ⟨"", "job-1", "worker-1"⟩

/-- An environment whose Supabase credentials are unconfigured. -/
def noCredsEnv : ReqEnv := { goodEnv [] 0 ff0 with supabase_url := "" }

/-- The healthy progressive run over a stream of exactly 39 segments of a
40-second audio, all flushes succeeding. -/
def run39 : Outcome ProgResponse :=
  transcribe_progressive progReq (goodEnv (mkSegs 39) 40 ff0)

/-- The healthy progressive run over a stream of exactly 40 segments of a
40-second audio, all flushes succeeding. -/
def run40 : Outcome ProgResponse :=
  transcribe_progressive progReq (goodEnv (mkSegs 40) 40 ff0)

/-- A loop state one segment short of the flush threshold. -/
def st0 : LoopState := ⟨mkSegs 19, 0, [], 0⟩

/-- The segment whose append crosses the threshold from `st0`. -/
def seg0 : Segment := ⟨"t", 19, 1, none⟩

end Whisperx

/-!
## Helper lemmas about the progressive loop
-/

namespace Whisperx

lemma getLast?_append_singleton (l : List α) (a : α) : (l ++ [a]).getLast? = some a :=
  List.getLast?_concat l

lemma flushStep_segments (est : Rat) (ff : Nat → Bool) (st : LoopState) (s : Segment) :
    (flushStep est ff st s).segments = st.segments ++ [s] := by
  simp only [flushStep]
  split <;> rfl

lemma foldl_segments (est : Rat) (ff : Nat → Bool) :
    ∀ (segs : List Segment) (st : LoopState),
      (segs.foldl (flushStep est ff) st).segments = st.segments ++ segs := by
  intro segs
  induction segs with
  | nil => intro st; simp
  | cons s rest ih =>
    intro st
    rw [List.foldl_cons, ih, flushStep_segments, List.append_assoc, List.singleton_append]

lemma runStream_segments (est : Rat) (ff : Nat → Bool) (segs : List Segment) :
    (runStream est ff segs).segments = segs := by
  rw [runStream, foldl_segments]
  rfl

lemma flushStep_events_of_ge (est : Rat) (ff : Nat → Bool) (st : LoopState) (s : Segment)
    (h : (flush_interval : Int) ≤ ((st.segments ++ [s]).length : Int) - (st.last_flush_count : Int)) :
    (flushStep est ff st s).flushEvents
      = st.flushEvents
        ++ [⟨(st.segments ++ [s]).length, s.offset, progress_pct est s.offset, ! ff st.attempt⟩] := by
  simp only [flushStep]
  rw [if_pos h]
  simp [getLast?_append_singleton]

lemma flushStep_events_of_lt (est : Rat) (ff : Nat → Bool) (st : LoopState) (s : Segment)
    (h : ¬ (flush_interval : Int) ≤ ((st.segments ++ [s]).length : Int) - (st.last_flush_count : Int)) :
    (flushStep est ff st s).flushEvents = st.flushEvents := by
  simp only [flushStep]
  rw [if_neg h]

lemma flushStep_lfc_of_fail (est : Rat) (ff : Nat → Bool) (st : LoopState) (s : Segment)
    (h : ff st.attempt = true) :
    (flushStep est ff st s).last_flush_count = st.last_flush_count := by
  simp only [flushStep]
  split
  · simp [h]
  · rfl

lemma foldl_events_spec (est : Rat) (ff : Nat → Bool) :
    ∀ (segs : List Segment) (st : LoopState),
      ∃ t, (segs.foldl (flushStep est ff) st).flushEvents = st.flushEvents ++ t
        ∧ (t.map FlushEvent.lastOffset).Sublist (segs.map Segment.offset)
        ∧ ∀ ev ∈ t, ev.pct = progress_pct est ev.lastOffset := by
  intro segs
  induction segs with
  | nil =>
    intro st
    exact ⟨[], by simp, by simp, by simp⟩
  | cons s rest ih =>
    intro st
    by_cases h : (flush_interval : Int)
        ≤ ((st.segments ++ [s]).length : Int) - (st.last_flush_count : Int)
    · obtain ⟨t, ht, hsub, hpct⟩ := ih (flushStep est ff st s)
      refine ⟨⟨(st.segments ++ [s]).length, s.offset, progress_pct est s.offset,
          ! ff st.attempt⟩ :: t, ?_, ?_, ?_⟩
      · rw [List.foldl_cons, ht, flushStep_events_of_ge est ff st s h, List.append_assoc,
          List.singleton_append]
      · rw [List.map_cons, List.map_cons]
        exact List.Sublist.cons₂ _ hsub
      · intro ev hev
        rcases List.mem_cons.mp hev with hev | hev
        · subst hev; rfl
        · exact hpct ev hev
    · obtain ⟨t, ht, hsub, hpct⟩ := ih (flushStep est ff st s)
      refine ⟨t, ?_, ?_, hpct⟩
      · rw [List.foldl_cons, ht, flushStep_events_of_lt est ff st s h]
      · rw [List.map_cons]
        exact List.Sublist.cons _ hsub

lemma runStream_events_spec (est : Rat) (ff : Nat → Bool) (segs : List Segment) :
    ((runStream est ff segs).flushEvents.map FlushEvent.lastOffset).Sublist
        (segs.map Segment.offset)
      ∧ ∀ ev ∈ (runStream est ff segs).flushEvents,
          ev.pct = progress_pct est ev.lastOffset := by
  obtain ⟨t, ht, hsub, hpct⟩ := foldl_events_spec est ff segs ⟨[], 0, [], 0⟩
  rw [runStream, ht, List.nil_append]
  exact ⟨hsub, hpct⟩

lemma flushEvents_cases (req : ProgressiveRequest) (env : ReqEnv) :
    ∃ segs, segs.Sublist env.streamSegs ∧
      (transcribe_progressive req env).flushEvents
        = (runStream (estimated_duration_of env.streamDuration) env.flushFails segs).flushEvents := by
  unfold transcribe_progressive
  split
  · exact ⟨[], List.nil_sublist _, rfl⟩
  split
  · exact ⟨[], List.nil_sublist _, rfl⟩
  split
  · exact ⟨[], List.nil_sublist _, rfl⟩
  split
  · exact ⟨[], List.nil_sublist _, rfl⟩
  · exact ⟨[], List.nil_sublist _, rfl⟩
  · split
    · exact ⟨[], List.nil_sublist _, rfl⟩
    · split
      · next n msg _ =>
        exact ⟨env.streamSegs.take n, List.take_sublist n _, rfl⟩
      · exact ⟨env.streamSegs, List.Sublist.refl _, rfl⟩

end Whisperx

namespace Whisperx

lemma pyInt_mono : Monotone pyInt := by
  intro a b hab
  unfold pyInt
  by_cases ha : 0 ≤ a
  · rw [if_pos ha, if_pos (ha.trans hab)]
    exact Int.floor_mono hab
  · rw [if_neg ha]
    by_cases hb : 0 ≤ b
    · rw [if_pos hb]
      refine le_trans (Int.ceil_le.mpr ?_) (Int.floor_nonneg.mpr hb)
      exact_mod_cast le_of_not_le ha
    · rw [if_neg hb]
      exact Int.ceil_mono hab

lemma estimated_duration_of_pos {d : Rat} (hd : 0 ≤ d) : 0 < estimated_duration_of d := by
  unfold estimated_duration_of
  by_cases h : d = 0
  · rw [if_pos h]; norm_num
  · rw [if_neg h]; exact lt_of_le_of_ne hd (Ne.symm h)

lemma progress_pct_eq_floor {est o : Rat} (hest : 0 < est) (ho : 0 ≤ o) :
    progress_pct est o = ⌊min (95 : Rat) (o / est * 100)⌋ := by
  have hx : 0 ≤ o / est * 100 := mul_nonneg (div_nonneg ho hest.le) (by norm_num)
  have hmin : ⌊min (95 : Rat) (o / est * 100)⌋ = min ⌊(95 : Rat)⌋ ⌊o / est * 100⌋ :=
    Int.floor_mono.map_min
  unfold progress_pct pyInt
  rw [if_pos hx, hmin]
  norm_num

lemma progress_pct_mono {est : Rat} (hest : 0 < est) {a b : Rat} (hab : a ≤ b) :
    progress_pct est a ≤ progress_pct est b := by
  unfold progress_pct
  refine min_le_min le_rfl (pyInt_mono ?_)
  gcongr

lemma progress_pct_le_95 (est o : Rat) : progress_pct est o ≤ 95 :=
  min_le_left _ _

end Whisperx

namespace Whisperx

lemma transcribe_progressive_success (reqP : ProgressiveRequest) (envP : ReqEnv)
    (hurl : envP.supabase_url ≠ "") (hkey : envP.supabase_key ≠ "")
    (hvid : reqP.video_id.length = 11) (hgpu : envP.gpuHeld = false)
    (hdl : isErr (download_audio reqP.video_id envP.dl) = false)
    (htr : envP.transcribeErr = none) (hse : envP.streamErrAfter = none) :
    transcribe_progressive reqP envP
      = ⟨.ok ⟨envP.streamSegs, envP.streamDuration, envP.streamSegs.length⟩,
          true, false, true, true,
          (runStream (estimated_duration_of envP.streamDuration) envP.flushFails
            envP.streamSegs).flushEvents,
          if envP.streamSegs.isEmpty then [] else [envP.streamSegs.length]⟩ := by
  have hvalid : ¬ (reqP.video_id = "" ∨ reqP.video_id.length ≠ 11) := by
    rintro (h | h)
    · rw [h] at hvid
      simp at hvid
    · exact h hvid
  unfold transcribe_progressive
  rw [if_neg (by rw [not_or]; exact ⟨hurl, hkey⟩), if_neg hvalid, if_neg (by rw [hgpu]; simp)]
  cases hd : download_audio reqP.video_id envP.dl with
  | error e =>
    rw [hd] at hdl
    simp [isErr] at hdl
  | ok p =>
    rw [htr, hse]
    simp only
    rw [runStream_segments]

end Whisperx

/-!
## Claim theorems
-/

namespace Whisperx

/-- Claim C1: for every request to either endpoint, on every exit path on
which the Accelerator Guard was acquired — success, audio-acquisition
failure (including timeout), transcription failure, mid-stream failure, or
flush failure — the guard is released (held state `false` afterwards) and
the scratch directory is removed before the response is returned. -/
theorem guard_released_and_tmpdir_removed (reqS : TranscribeRequest)
    (reqP : ProgressiveRequest) (envS envP : ReqEnv) :
    ((transcribe reqS envS).guardAcquired = true →
        (transcribe reqS envS).gpuHeldAfter = false
        ∧ (transcribe reqS envS).tmpdirRemoved = true)
    ∧ ((transcribe_progressive reqP envP).guardAcquired = true →
        (transcribe_progressive reqP envP).gpuHeldAfter = false
        ∧ (transcribe_progressive reqP envP).tmpdirRemoved = true) := by
  constructor
  · unfold transcribe
    repeat' split
    all_goals intro h
    all_goals first
      | exact ⟨rfl, rfl⟩
      | cases h
  · unfold transcribe_progressive
    repeat' split
    all_goals intro h
    all_goals first
      | exact ⟨rfl, rfl⟩
      | cases h

/-- Witness for C1: a healthy run on each endpoint does acquire the guard,
and afterwards the guard is free and the scratch directory removed. -/
theorem guard_released_and_tmpdir_removed_witness :
    (transcribe syncReq (goodEnv [] 40 ff0)).guardAcquired = true
    ∧ ((transcribe syncReq (goodEnv [] 40 ff0)).gpuHeldAfter = false
        ∧ (transcribe syncReq (goodEnv [] 40 ff0)).tmpdirRemoved = true)
    ∧ (transcribe_progressive progReq (goodEnv [] 40 ff0)).guardAcquired = true
    ∧ ((transcribe_progressive progReq (goodEnv [] 40 ff0)).gpuHeldAfter = false
        ∧ (transcribe_progressive progReq (goodEnv [] 40 ff0)).tmpdirRemoved = true) :=
  ⟨by decide,
   (guard_released_and_tmpdir_removed syncReq progReq (goodEnv [] 40 ff0)
      (goodEnv [] 40 ff0)).1 (by decide),
   by decide,
   (guard_released_and_tmpdir_removed syncReq progReq (goodEnv [] 40 ff0)
      (goodEnv [] 40 ff0)).2 (by decide)⟩

/-- Claim C2: an absent (empty) or non-11-character identifier makes both
endpoints reject before the guard is touched (the guard's held/free state
is unchanged), and on the progressive endpoint unconfigured durable-store
credentials likewise reject before the guard is touched. -/
theorem validation_precedes_guard (reqS : TranscribeRequest)
    (reqP : ProgressiveRequest) (envS envP : ReqEnv) :
    (reqS.video_id = "" ∨ reqS.video_id.length ≠ 11 →
        isErr (transcribe reqS envS).response = true
        ∧ (transcribe reqS envS).guardAcquired = false
        ∧ (transcribe reqS envS).gpuHeldAfter = envS.gpuHeld)
    ∧ (reqP.video_id = "" ∨ reqP.video_id.length ≠ 11 →
        isErr (transcribe_progressive reqP envP).response = true
        ∧ (transcribe_progressive reqP envP).guardAcquired = false
        ∧ (transcribe_progressive reqP envP).gpuHeldAfter = envP.gpuHeld)
    ∧ (envP.supabase_url = "" ∨ envP.supabase_key = "" →
        isErr (transcribe_progressive reqP envP).response = true
        ∧ (transcribe_progressive reqP envP).guardAcquired = false
        ∧ (transcribe_progressive reqP envP).gpuHeldAfter = envP.gpuHeld) := by
  refine ⟨fun h => ?_, fun h => ?_, fun h => ?_⟩
  · unfold transcribe
    rw [if_pos h]
    exact ⟨rfl, rfl, rfl⟩
  · unfold transcribe_progressive
    by_cases hc : envP.supabase_url = "" ∨ envP.supabase_key = ""
    · rw [if_pos hc]
      exact ⟨rfl, rfl, rfl⟩
    · rw [if_neg hc, if_pos h]
      exact ⟨rfl, rfl, rfl⟩
  · unfold transcribe_progressive
    rw [if_pos h]
    exact ⟨rfl, rfl, rfl⟩

/-- Witness for C2: a 5-character id, an empty id, and unconfigured
credentials each get rejected with the guard untouched. -/
theorem validation_precedes_guard_witness :
    (isErr (transcribe badSyncReq (goodEnv [] 40 ff0)).response = true
      ∧ (transcribe badSyncReq (goodEnv [] 40 ff0)).guardAcquired = false
      ∧ (transcribe badSyncReq (goodEnv [] 40 ff0)).gpuHeldAfter = (goodEnv [] 40 ff0).gpuHeld)
    ∧ (isErr (transcribe_progressive badProgReq (goodEnv [] 40 ff0)).response = true
      ∧ (transcribe_progressive badProgReq (goodEnv [] 40 ff0)).guardAcquired = false
      ∧ (transcribe_progressive badProgReq (goodEnv [] 40 ff0)).gpuHeldAfter
          = (goodEnv [] 40 ff0).gpuHeld)
    ∧ (isErr (transcribe_progressive progReq noCredsEnv).response = true
      ∧ (transcribe_progressive progReq noCredsEnv).guardAcquired = false
      ∧ (transcribe_progressive progReq noCredsEnv).gpuHeldAfter = noCredsEnv.gpuHeld) :=
  ⟨(validation_precedes_guard badSyncReq badProgReq (goodEnv [] 40 ff0)
      (goodEnv [] 40 ff0)).1 (by decide),
   (validation_precedes_guard badSyncReq badProgReq (goodEnv [] 40 ff0)
      (goodEnv [] 40 ff0)).2.1 (by decide),
   (validation_precedes_guard badSyncReq badProgReq (goodEnv [] 40 ff0)
      noCredsEnv).2.2 (by decide)⟩

set_option maxRecDepth 4000 in
/-- Claim C8: a downloaded file of exactly 1000 bytes and of exactly
1,500,000,000 bytes is accepted; 999 bytes fails with the too-small
condition (502) and 1,500,000,001 bytes with the too-large condition
(413); every other acquisition failure (non-zero exit, no output file,
too-small) carries 502, so the too-large code is distinct from them all. -/
theorem audio_size_boundaries :
    isErr (download_audio "abcdefghijk" (dlEnvOfSize 1000)) = false
    ∧ isErr (download_audio "abcdefghijk" (dlEnvOfSize 1500000000)) = false
    ∧ download_audio "abcdefghijk" (dlEnvOfSize 999)
        = .error (.http ⟨502, "Audio too small (999 bytes)"⟩)
    ∧ download_audio "abcdefghijk" (dlEnvOfSize 1500000001)
        = .error (.http ⟨413, "Audio too large (1500000001 bytes, max 1500000000)"⟩)
    ∧ dlHttpCode (download_audio "abcdefghijk" { dlEnvOfSize 5000 with returncode := 1 })
        = some 502
    ∧ dlHttpCode (download_audio "abcdefghijk" { dlEnvOfSize 5000 with files := [] })
        = some 502
    ∧ (413 : Nat) ≠ 502 := by
  refine ⟨by decide, by decide, by decide, by decide, by decide, by decide, by decide⟩

end Whisperx

namespace Whisperx

/-- Claim C9: the startup janitor deletes exactly the entries of `/tmp`
that match the service's naming pattern (the `whisperx-` prefix with a
tempfile-style name of length at least 15), are not the exact model-cache
path, and are older than one hour; younger entries, non-matching names,
and the model-cache path itself are untouched. -/
theorem janitor_sweep_characterization (now : Rat) (hf_home : String) (e : TmpEntry) :
    janitorDeletes now hf_home e = true ↔
      (e.name.startsWith "whisperx-" = true ∧ 15 ≤ e.name.length)
        ∧ ("/tmp/" ++ e.name) ≠ hf_home
        ∧ e.mtime < now - 3600 := by
  have hpath : ("/tmp/" ++ e.name) ≠ "" := by
    intro hc
    have hlen := congrArg String.length hc
    rw [String.length_append] at hlen
    have h5 : ("/tmp/" : String).length = 5 := by decide
    have h0 : ("" : String).length = 0 := by decide
    rw [h5, h0] at hlen
    omega
  by_cases h1 : e.name.startsWith "whisperx-"
  · by_cases h2 : hf_home ≠ "" ∧ ("/tmp/" ++ e.name) = hf_home
    · simp only [janitorDeletes]
      rw [if_neg (by simp [h1]), if_pos h2]
      constructor
      · intro h; cases h
      · rintro ⟨_, hp, _⟩; exact absurd h2.2 hp
    · have hne : ("/tmp/" ++ e.name) ≠ hf_home := by
        by_cases hh : hf_home = ""
        · rw [hh]; exact hpath
        · intro hc; exact h2 ⟨hh, hc⟩
      by_cases h3 : e.name.length < 15
      · simp only [janitorDeletes]
        rw [if_neg (by simp [h1]), if_neg h2, if_pos (by right; exact h3)]
        constructor
        · intro h; cases h
        · rintro ⟨⟨_, hl⟩, _, _⟩; omega
      · simp only [janitorDeletes]
        rw [if_neg (by simp [h1]), if_neg h2, if_neg (by rw [not_or]; exact ⟨by simp [h1], h3⟩)]
        simp only [decide_eq_true_eq]
        constructor
        · intro h; exact ⟨⟨h1, by omega⟩, hne, h⟩
        · rintro ⟨_, _, h⟩; exact h
  · simp only [janitorDeletes]
    rw [if_pos (by simp [h1])]
    constructor
    · intro h; cases h
    · rintro ⟨⟨hs, _⟩, _, _⟩; exact absurd hs (by simpa using h1)

end Whisperx

namespace Embedding

/-- Claim C10: the embed endpoint rejects with a 400 error exactly when
the texts list is empty or longer than 256; between 1 and 256 texts the
size cap never rejects. -/
theorem embed_size_cap_characterization (req : EmbedRequest) :
    Whisperx.isErr (embed req) = (req.texts.isEmpty || decide (256 < req.texts.length))
    ∧ Whisperx.errCode (embed req)
        = (if req.texts.isEmpty || decide (256 < req.texts.length) then some 400 else none) := by
  by_cases h1 : req.texts.isEmpty
  · simp [embed, h1, Whisperx.isErr, Whisperx.errCode]
  · by_cases h2 : 256 < req.texts.length
    · simp [embed, h1, h2, Whisperx.isErr, Whisperx.errCode]
    · simp [embed, h1, h2, Whisperx.isErr, Whisperx.errCode]

end Embedding

namespace Whisperx

set_option maxRecDepth 8000 in
/-- Counterexample to claim C3: a stream of exactly 40 segments does not
produce only the single periodic checkpoint at segment 20 — after the
40th segment `len(segments) - last_flush_count` is again 20, so a second
periodic checkpoint fires at 40 (in addition to the final checkpoint). -/
theorem flush_threshold_forty_counterexample :
    ¬ (run40.flushEvents.map FlushEvent.atCount = [20]) := by decide

set_option maxRecDepth 8000 in
/-- Amended claim C3: a periodic checkpoint is attempted after appending a
segment exactly when the new segment count minus the last-flushed count is
at least 20; hence 39 segments give exactly one periodic checkpoint (at
20) plus the final checkpoint covering all 39, while 40 segments give
periodic checkpoints at 20 and at 40 plus the final checkpoint at 40. -/
theorem flush_threshold_amended :
    (∀ (est : Rat) (ff : Nat → Bool) (st : LoopState) (s : Segment),
        (flushStep est ff st s).flushEvents.length = st.flushEvents.length + 1
          ↔ (flush_interval : Int)
              ≤ ((st.segments.length : Int) + 1) - (st.last_flush_count : Int))
    ∧ run39.flushEvents.map FlushEvent.atCount = [20]
    ∧ run39.finalFlushes = [39]
    ∧ run40.flushEvents.map FlushEvent.atCount = [20, 40]
    ∧ run40.finalFlushes = [40] := by
  refine ⟨?_, by decide, by decide, by decide, by decide⟩
  intro est ff st s
  have hlen : (((st.segments ++ [s]).length : Nat) : Int)
      = (st.segments.length : Int) + 1 := by
    simp
  constructor
  · intro h
    by_contra hc
    rw [flushStep_events_of_lt est ff st s (by rw [hlen]; exact hc)] at h
    omega
  · intro h
    rw [flushStep_events_of_ge est ff st s (by rw [hlen]; exact h)]
    simp

set_option maxRecDepth 2000 in
/-- Counterexample to claim C4: on a stream yielding zero segments the
final checkpoint is skipped entirely (`if segments:` guards it), so no
final upsert is attempted. -/
theorem final_flush_empty_stream_counterexample :
    ¬ ((transcribe_progressive progReq (goodEnv [] 40 ff0)).finalFlushes.length = 1) := by
  decide

/-- Amended claim C4: after the stream is exhausted in a successful run,
exactly one final checkpoint upsert of the full accumulated list is
attempted when the stream yielded at least one segment — even when the
last periodic checkpoint already covered every segment — and none is
attempted for a zero-segment stream. -/
theorem final_flush_iff_nonempty (reqP : ProgressiveRequest) (envP : ReqEnv)
    (hurl : envP.supabase_url ≠ "") (hkey : envP.supabase_key ≠ "")
    (hvid : reqP.video_id.length = 11) (hgpu : envP.gpuHeld = false)
    (hdl : isErr (download_audio reqP.video_id envP.dl) = false)
    (htr : envP.transcribeErr = none) (hse : envP.streamErrAfter = none) :
    (transcribe_progressive reqP envP).finalFlushes
      = if envP.streamSegs.isEmpty then [] else [envP.streamSegs.length] := by
  rw [transcribe_progressive_success reqP envP hurl hkey hvid hgpu hdl htr hse]

set_option maxRecDepth 8000 in
/-- Witness for the amended C4: a 20-segment stream — fully covered by the
periodic checkpoint at 20 — still gets one final checkpoint of all 20. -/
theorem final_flush_iff_nonempty_witness :
    (transcribe_progressive progReq (goodEnv (mkSegs 20) 40 ff0)).finalFlushes
      = if (goodEnv (mkSegs 20) 40 ff0).streamSegs.isEmpty then []
        else [(goodEnv (mkSegs 20) 40 ff0).streamSegs.length] :=
  final_flush_iff_nonempty progReq (goodEnv (mkSegs 20) 40 ff0) (by decide) (by decide)
    (by decide) (by decide) (by decide) (by decide) (by decide)

/-- Claim C5: a failed checkpoint upsert never aborts the job — the
last-flushed count is not advanced by a failed periodic checkpoint, and a
job whose checkpoint upserts all may fail still returns its success
response carrying every segment. -/
theorem checkpoint_failure_nonfatal (est : Rat) (ff : Nat → Bool)
    (st : LoopState) (s : Segment)
    (reqP : ProgressiveRequest) (envP : ReqEnv)
    (hfail : ff st.attempt = true)
    (hurl : envP.supabase_url ≠ "") (hkey : envP.supabase_key ≠ "")
    (hvid : reqP.video_id.length = 11) (hgpu : envP.gpuHeld = false)
    (hdl : isErr (download_audio reqP.video_id envP.dl) = false)
    (htr : envP.transcribeErr = none) (hse : envP.streamErrAfter = none) :
    (flushStep est ff st s).last_flush_count = st.last_flush_count
    ∧ (transcribe_progressive reqP envP).response
        = .ok ⟨envP.streamSegs, envP.streamDuration, envP.streamSegs.length⟩ := by
  refine ⟨flushStep_lfc_of_fail est ff st s hfail, ?_⟩
  rw [transcribe_progressive_success reqP envP hurl hkey hvid hgpu hdl htr hse]

set_option maxRecDepth 8000 in
/-- Witness for C5: with every upsert failing, a threshold-crossing step
leaves the last-flushed count at 0, and a 21-segment job still responds
with all 21 segments. -/
theorem checkpoint_failure_nonfatal_witness :
    ffAll st0.attempt = true
    ∧ (flushStep 40 ffAll st0 seg0).last_flush_count = st0.last_flush_count
    ∧ (transcribe_progressive progReq (goodEnv (mkSegs 21) 40 ffAll)).response
        = .ok ⟨(goodEnv (mkSegs 21) 40 ffAll).streamSegs,
               (goodEnv (mkSegs 21) 40 ffAll).streamDuration,
               (goodEnv (mkSegs 21) 40 ffAll).streamSegs.length⟩ :=
  ⟨by decide,
   (checkpoint_failure_nonfatal 40 ffAll st0 seg0 progReq (goodEnv (mkSegs 21) 40 ffAll)
      (by decide) (by decide) (by decide) (by decide) (by decide) (by decide) (by decide)
      (by decide)).1,
   (checkpoint_failure_nonfatal 40 ffAll st0 seg0 progReq (goodEnv (mkSegs 21) 40 ffAll)
      (by decide) (by decide) (by decide) (by decide) (by decide) (by decide) (by decide)
      (by decide)).2⟩

end Whisperx

namespace Whisperx

/-- Claim C6: at every periodic checkpoint the reported percentage equals
`floor(min(95, offsetOfLastSegment / estimatedDurationSeconds * 100))`,
where the estimated duration is the stream's reported total duration, or
the fixed 600-second fallback when that duration is unknown (falsy). -/
theorem progress_pct_floor_min_formula (reqP : ProgressiveRequest) (envP : ReqEnv)
    (hoff : ∀ s ∈ envP.streamSegs, 0 ≤ s.offset)
    (hdur : 0 ≤ envP.streamDuration) :
    (transcribe_progressive reqP envP).flushEvents.map FlushEvent.pct
      = (transcribe_progressive reqP envP).flushEvents.map
          (fun ev => ⌊min (95 : Rat)
            (ev.lastOffset / estimated_duration_of envP.streamDuration * 100)⌋) := by
  obtain ⟨segs, hsub, heq⟩ := flushEvents_cases reqP envP
  rw [heq]
  obtain ⟨hsubo, hpct⟩ := runStream_events_spec (estimated_duration_of envP.streamDuration)
    envP.flushFails segs
  refine List.map_congr_left (fun ev hev => ?_)
  have hmem : ev.lastOffset ∈ segs.map Segment.offset :=
    hsubo.subset (List.mem_map_of_mem FlushEvent.lastOffset hev)
  obtain ⟨s, hs, hso⟩ := List.mem_map.mp hmem
  have ho : 0 ≤ ev.lastOffset := hso ▸ hoff s (hsub.subset hs)
  rw [hpct ev hev]
  exact progress_pct_eq_floor (estimated_duration_of_pos hdur) ho

/-- Witness for C6: in the 39-segment run (one periodic checkpoint, at
count 20 with last offset 19) the recorded percentages coincide with the
`floor(min(95, offset/duration*100))` formula. -/
theorem progress_pct_floor_min_formula_witness :
    (transcribe_progressive progReq (goodEnv (mkSegs 39) 40 ff0)).flushEvents.map
        FlushEvent.pct
      = (transcribe_progressive progReq (goodEnv (mkSegs 39) 40 ff0)).flushEvents.map
          (fun ev => ⌊min (95 : Rat) (ev.lastOffset
            / estimated_duration_of (goodEnv (mkSegs 39) 40 ff0).streamDuration * 100)⌋) :=
  progress_pct_floor_min_formula progReq (goodEnv (mkSegs 39) 40 ff0) (by decide) (by decide)

/-- Claim C7: for a stream whose segment offsets are non-decreasing, the
percentages reported at successive periodic checkpoints of one job are
non-decreasing, and no reported percentage ever exceeds 95. -/
theorem progress_monotone_and_capped (reqP : ProgressiveRequest) (envP : ReqEnv)
    (hmono : List.Pairwise (· ≤ ·) (envP.streamSegs.map Segment.offset))
    (hdur : 0 ≤ envP.streamDuration) :
    List.Pairwise (· ≤ ·)
        ((transcribe_progressive reqP envP).flushEvents.map FlushEvent.pct)
    ∧ ((transcribe_progressive reqP envP).flushEvents.all
        (fun ev => decide (ev.pct ≤ 95))) = true := by
  obtain ⟨segs, hsub, heq⟩ := flushEvents_cases reqP envP
  rw [heq]
  obtain ⟨hsubo, hpct⟩ := runStream_events_spec (estimated_duration_of envP.streamDuration)
    envP.flushFails segs
  constructor
  · have hmap : (runStream (estimated_duration_of envP.streamDuration) envP.flushFails
          segs).flushEvents.map FlushEvent.pct
        = ((runStream (estimated_duration_of envP.streamDuration) envP.flushFails
            segs).flushEvents.map FlushEvent.lastOffset).map
            (progress_pct (estimated_duration_of envP.streamDuration)) := by
      rw [List.map_map]
      exact List.map_congr_left hpct
    rw [hmap]
    refine List.Pairwise.map _
      (fun a b hab => progress_pct_mono (estimated_duration_of_pos hdur) hab) ?_
    exact hmono.sublist (hsubo.trans (hsub.map Segment.offset))
  · rw [List.all_eq_true]
    intro ev hev
    simpa [hpct ev hev] using progress_pct_le_95
      (estimated_duration_of envP.streamDuration) ev.lastOffset

set_option maxRecDepth 8000 in
/-- Witness for C7: the 40-segment run reports percentages 47 then 95 —
non-decreasing and capped at 95. -/
theorem progress_monotone_and_capped_witness :
    List.Pairwise (· ≤ ·)
        ((transcribe_progressive progReq (goodEnv (mkSegs 40) 40 ff0)).flushEvents.map
          FlushEvent.pct)
    ∧ ((transcribe_progressive progReq (goodEnv (mkSegs 40) 40 ff0)).flushEvents.all
        (fun ev => decide (ev.pct ≤ 95))) = true :=
  progress_monotone_and_capped progReq (goodEnv (mkSegs 40) 40 ff0) (by decide) (by decide)

end Whisperx
